import Mathlib

set_option autoImplicit false

/-!
Shallow embedding of the flight-schedule timeline logic from
`src/app/static/js/flight_schedule.js`, together with theorems settling the
frozen claims about the natural-language specification.  Times are modelled
as integer minutes (the JavaScript source works in milliseconds on `Date`
objects; every arithmetic step in the relevant code paths is a whole number
of minutes, and the local timezone offset is a whole number of hours, so the
minute-level model is exact).  Nullable JavaScript values are modelled with
`Option`.
-/

namespace FlightSchedule

/-- ASCII lowercase on every character, modelling `String.prototype.toLowerCase`
for the ASCII inputs handled by this program. -/
def jsToLower (s : String) : String := String.mk (s.data.map Char.toLower)

/-- ASCII uppercase on every character, modelling `String.prototype.toUpperCase`. -/
def jsToUpper (s : String) : String := String.mk (s.data.map Char.toUpper)

/-- Whether the second list starts with the first. -/
def charsPrefix : List Char → List Char → Bool
  | [], _ => true
  | _ :: _, [] => false
  | a :: as, b :: bs => a == b && charsPrefix as bs

/-- Whether the needle occurs as a contiguous run inside the haystack. -/
def charsContains (needle : List Char) : List Char → Bool
  | [] => needle.isEmpty
  | b :: bs => charsPrefix needle (b :: bs) || charsContains needle bs

/-- `String.prototype.includes`. -/
def jsIncludes (s sub : String) : Bool := charsContains sub.data s.data

/-- `normaliseStatus` (source lines 213-224): case-insensitive substring
match against the ordered keyword list; empty/absent input and no match both
give `"unknown"`. -/
def normaliseStatus (status : String) : String :=
  if status = "" then "unknown"
  else
    let s := jsToLower status
    if jsIncludes s "planning" then "planning"
    else if jsIncludes s "on blocks" then "onblocks"
    else if jsIncludes s "off blocks" then "offblocks"
    else if jsIncludes s "take off" then "takeoff"
    else if jsIncludes s "landed" then "landed"
    else if jsIncludes s "return to stand" then "returntostand"
    else if jsIncludes s "divert" then "diverted"
    else "unknown"

/-- ASCII whitespace as recognised by `String.prototype.trim` on the inputs
this program handles. -/
def isWsChar (c : Char) : Bool := c == ' ' || c == '\t' || c == '\n' || c == '\r'

/-- Trim leading and trailing whitespace from a character list. -/
def trimChars (cs : List Char) : List Char :=
  ((cs.dropWhile isWsChar).reverse.dropWhile isWsChar).reverse

/-- `String.prototype.trim`. -/
def jsTrim (s : String) : String := String.mk (trimChars s.data)

/-- Leading decimal digits of a character list. -/
def leadingDigits (cs : List Char) : List Char := cs.takeWhile Char.isDigit

/-- Numeric value of a list of decimal digits. -/
def digitsToNat (cs : List Char) : Nat :=
  cs.foldl (fun a c => 10 * a + (c.toNat - 48)) 0

/-- JavaScript `parseInt(s, 10)`: skip whitespace, read an optional sign and
the leading run of digits; `none` models the `NaN` result. -/
def jsParseInt (s : String) : Option Int :=
  let cs := trimChars s.data
  match cs with
  | '-' :: rest =>
      let ds := leadingDigits rest
      if ds.isEmpty then none else some (-(digitsToNat ds : Int))
  | '+' :: rest =>
      let ds := leadingDigits rest
      if ds.isEmpty then none else some ((digitsToNat ds : Int))
  | _ =>
      let ds := leadingDigits cs
      if ds.isEmpty then none else some ((digitsToNat ds : Int))

/-- `DEFAULT_BLOCK_MIN` (source line 84). -/
def DEFAULT_BLOCK_MIN : Int := 60

/-- `parseInt(row.block_mins || "0", 10) || DEFAULT_BLOCK_MIN`
(source line 268): a missing, malformed or zero block-minutes field falls
back to 60. -/
def blockFromField (blockMins : String) : Int :=
  match jsParseInt (if blockMins = "" then "0" else blockMins) with
  | none => DEFAULT_BLOCK_MIN
  | some v => if v = 0 then DEFAULT_BLOCK_MIN else v

/-- One raw flight row as assembled by `buildRowsFromDom` (source lines
227-254).  The six timestamp fields carry the result of `parseDate` on the
corresponding data attribute: `none` models both an absent attribute and an
unparsable date; `some t` is the parsed instant in minutes. -/
structure FlightRow where
  reg : String := "Unknown"
  dep : String := ""
  ades : String := ""
  std_nz : Option Int := none
  sta_nz : Option Int := none
  std_sched_nz : Option Int := none
  sta_sched_nz : Option Int := none
  dep_actual_nz : Option Int := none
  arr_actual_nz : Option Int := none
  block_mins : String := "0"
  flight_status : String := ""
deriving DecidableEq, Repr

/-- JavaScript `a || b` on two nullable `Date` values (a `Date` object is
always truthy, `null` is falsy). -/
def jsOrDate (a b : Option Int) : Option Int :=
  match a with
  | some x => some x
  | none => b

/-- The resolved flight model produced by `buildFlightsFromRows` (source
lines 256-333), restricted to the fields the verified claims depend on. -/
structure Flight where
  id : Nat
  reg : String
  stdEst : Option Int
  staEst : Option Int
  stdSched : Option Int
  staSched : Option Int
  depActual : Option Int
  arrActual : Option Int
  blockMins : Int
  statusRaw : String
  statusNorm : String
deriving DecidableEq, Repr

/-- The body of the `rows.map((row, idx) => ...)` callback in
`buildFlightsFromRows` (source lines 258-331): the bar start/end precedence
`actual || estimated || scheduled` and the block-minutes synthesis of a
missing bar end. -/
def mkFlight (idx : Nat) (row : FlightRow) : Flight :=
  let block := blockFromField row.block_mins
  let barStart := jsOrDate row.dep_actual_nz (jsOrDate row.std_nz row.std_sched_nz)
  let barEnd0 := jsOrDate row.arr_actual_nz (jsOrDate row.sta_nz row.sta_sched_nz)
  let barEnd :=
    match barEnd0, barStart with
    | none, some s => some (s + block)
    | _, _ => barEnd0
  { id := idx
    reg := jsTrim (jsToUpper (if row.reg = "" then "UNKNOWN" else row.reg))
    stdEst := barStart
    staEst := barEnd
    stdSched := row.std_sched_nz
    staSched := row.sta_sched_nz
    depActual := row.dep_actual_nz
    arrActual := row.arr_actual_nz
    blockMins := block
    statusRaw := row.flight_status
    statusNorm := normaliseStatus row.flight_status }

/-- `rows.map((row, idx) => ...)` with a running index. -/
def mapWithIndex (i : Nat) : List FlightRow → List Flight
  | [] => []
  | r :: rs => mkFlight i r :: mapWithIndex (i + 1) rs

/-- `buildFlightsFromRows` (source lines 256-333): map each row to a flight,
then keep only flights whose bar start and bar end both resolved
(`.filter(f => f.stdEst && f.staEst)`, source line 332). -/
def buildFlightsFromRows (rows : List FlightRow) : List Flight :=
  (mapWithIndex 0 rows).filter (fun f => f.stdEst.isSome && f.staEst.isSome)

/-- The resolved display-start of a row: first non-null of actual,
estimated, scheduled departure. -/
def resolveDisplayStart (row : FlightRow) : Option Int :=
  jsOrDate row.dep_actual_nz (jsOrDate row.std_nz row.std_sched_nz)

/-- The resolved display-end of a row after the block-minutes synthesis. -/
def resolveDisplayEnd (row : FlightRow) : Option Int :=
  let barEnd0 := jsOrDate row.arr_actual_nz (jsOrDate row.sta_nz row.sta_sched_nz)
  match barEnd0, resolveDisplayStart row with
  | none, some s => some (s + blockFromField row.block_mins)
  | _, _ => barEnd0

/-- `DELAY_CODE_META` (source lines 100-178): the fixed IATA delay-code
reference table, mapping each two-digit code to its external (Envision)
identifier and description. -/
def DELAY_CODE_META : List (String × Int × String) := [
  ("81", 7, "ATFM due to ATC en-route demand capacity"),
  ("11", 9, "Late check-in, acceptance after deadline"),
  ("12", 10, "Late check-in, congestion in check-in"),
  ("15", 14, "Boarding, discrepancies and paging, missing check-in passenger"),
  ("16", 16, "Commercial publicity/passenger convenience, illness/death, VIP, Press, TV"),
  ("17", 17, "Catering order, late or incorrect order given to supplier"),
  ("18", 18, "Baggage Processing, sorting etc"),
  ("21", 19, "Cargo documentation, errors"),
  ("22", 20, "Late positioning of Cargo"),
  ("23", 21, "Late acceptance of Cargo"),
  ("24", 22, "Inadequate cargo packing and/or quantity"),
  ("25", 23, "Oversells, cargo booking error"),
  ("26", 24, "Late cargo preparation in warehouse"),
  ("27", 25, "Mail documentation, errors"),
  ("28", 26, "Late mail positioning"),
  ("31", 27, "Aircraft documentation late/inaccurate (W&B, gen dec, pax manifest, etc.)"),
  ("32", 28, "Loading / Unloading, bulky/special load, lack of loading staff"),
  ("33", 29, "Loading equipment, lack of/or breakdown"),
  ("34", 30, "Servicing equipment, lack of/or breakdown, lack of staff (e.g. steps)"),
  ("35", 31, "Aircraft cleaning"),
  ("36", 32, "Fuelling / defueling"),
  ("37", 33, "Catering, late delivery or loading"),
  ("38", 34, "ULD, lack of or serviceability"),
  ("39", 35, "Technical equipment lack or breakdown"),
  ("41", 36, "Aircraft defects"),
  ("42", 37, "Scheduled maintenance, late release"),
  ("43", 38, "Non scheduled maintenance, extra checks / additional work"),
  ("44", 39, "Spares and maintenance equipment, lack of/or breakdown"),
  ("45", 40, "AOG spares, to be carried to another station"),
  ("46", 41, "Aircraft change for technical reasons within same fleet"),
  ("47", 44, "Stand-by aircraft, lack of planned stand-by aircraft for technical reasons"),
  ("51", 45, "Damage in flight ops (bird/lighting/turbulence/overweight landing/taxi collision)"),
  ("52", 46, "Damage during ground operations, collision (other than during taxi)"),
  ("55", 48, "Departure Control"),
  ("56", 49, "Cargo preparation / documentation"),
  ("57", 50, "Flight Plans"),
  ("58", 51, "Other automated systems"),
  ("61", 52, "Flight Plan, late completion / change, flight documentation"),
  ("62", 53, "Operational requirements, fuel / load alteration"),
  ("63", 56, "Late crew boarding / departure procedures (other than connection/stand-by)"),
  ("71", 62, "Departure station below aircraft operating limits"),
  ("72", 63, "Destination station below aircraft operating limits"),
  ("73", 64, "Alternate station below aircraft operating limits"),
  ("74", 65, "Enroute – strong headwind, rerouting, weather avoidance"),
  ("75", 66, "De-icing and de-snowing of aircraft"),
  ("76", 67, "Removal of snow, ice, water and sand from airport"),
  ("77", 68, "Ground handling impacted by adverse weather conditions"),
  ("85", 88, "Restrictions at departure airport (closure, unrest, noise abatement, etc.)"),
  ("86", 89, "Immigration, customs, health"),
  ("87", 90, "Airport facilities, stands, ramp congestion, lighting, buildings, gate limits"),
  ("88", 91, "Restrictions at destination airport, with or without ATFM"),
  ("93", 92, "Aircraft rotation, late arrival from previous sector"),
  ("99", 93, "Other reason, not matching any codes above"),
  ("01", 94, "Planned schedule deviation for regular flights"),
  ("02", 95, "Planned schedule deviation for charter flights"),
  ("03", 96, "Late bus"),
  ("13", 98, "Check-in error passenger and/or baggage"),
  ("14", 99, "Oversales booking error"),
  ("29", 101, "Late mail acceptance"),
  ("48", 102, "Scheduled cabin configuration/version adjustments"),
  ("59", 103, "Operational requirements; fuel or load alteration"),
  ("60", 104, "Late crew boarding or departure procedures"),
  ("64", 105, "Flight deck crew shortage/sickness/stand-by/FTL"),
  ("65", 106, "Flight deck crew special request (non-operational)"),
  ("66", 107, "Late cabin crew boarding/departure (not connections/stand-by)"),
  ("82", 108, "ATFM due to ATC staff/equipment en-route, industrial action, staff shortage"),
  ("83", 109, "ATFM due to restriction at destination airport"),
  ("84", 110, "ATFM due to weather at destination"),
  ("89", 111, "Restrictions at departure airport inc. ATS/start-up/pushback"),
  ("91", 112, "Load connection, awaiting from another flight"),
  ("92", 113, "Through check-in error passenger and baggage"),
  ("94", 114, "Cabin crew rotation awaiting cabin crew from another flight"),
  ("95", 115, "Crew rotation awaiting crew from another flight"),
  ("96", 116, "Ops control re-routing, diversion, a/c change (non-technical)"),
  ("97", 117, "Industrial action within own airline"),
  ("98", 118, "Industrial action outside own airline, excluding ATC"),
  ("67", 119, "Cabin crew shortage/sickness/stand-by/FTL")
]

/-- Lookup `DELAY_CODE_META[code]`. -/
def delayCodeMeta (code : String) : Option (Int × String) :=
  (DELAY_CODE_META.find? (fun e => e.1 == code)).map (fun e => e.2)

/-- One user-entered delay row from the modal: the raw code input value, the
raw minutes input value, and the remark (all strings as typed). -/
structure DelayRowIn where
  code : String := ""
  minutes : String := ""
  remark : String := ""
deriving DecidableEq, Repr

/-- One accepted delay entry as pushed by `collectDelaysFromModal`
(source lines 1610-1617). -/
structure DelayOut where
  code : String
  delayCodeId : Int
  delayMinutes : Int
  description : String
  remark : String
  isArrival : Bool
deriving DecidableEq, Repr

/-- `parseInt(minsInput.value || "0", 10)` (source line 1590); `none` models
`NaN`. -/
def delayMinsOf (r : DelayRowIn) : Option Int :=
  jsParseInt (if r.minutes = "" then "0" else r.minutes)

/-- The per-row body of `collectDelaysFromModal` (source lines 1582-1618):
`none` when the row is skipped, `Sum.inr code` when the normalized code is
unknown, `Sum.inl entry` when the row survives and is enriched from the
reference table. -/
def processDelayRow (isArrival : Bool) (r : DelayRowIn) : Option (DelayOut ⊕ String) :=
  let code0 := jsTrim r.code
  let mins := delayMinsOf r
  let remark := jsTrim r.remark
  if code0 = "" ∧ (mins = none ∨ mins = some 0) then none
  else
    let code1 := String.mk (code0.data.filter Char.isDigit)
    if code1 = "" then none
    else
      let code := if code1.length = 1 then "0" ++ code1 else code1
      match mins with
      | none => none
      | some m =>
        if m ≤ 0 then none
        else
          match delayCodeMeta code with
          | none => some (Sum.inr code)
          | some meta =>
              some (Sum.inl
                { code := code, delayCodeId := meta.1, delayMinutes := m,
                  description := meta.2, remark := remark, isArrival := isArrival })

/-- Insertion into the `unknownCodes` set preserving first-insertion order. -/
def insertUnique (s : List String) (c : String) : List String :=
  if s.contains c then s else s ++ [c]

/-- The row loop of `collectDelaysFromModal`, accumulating accepted entries
and unknown codes in order. -/
def collectAux (isArrival : Bool) :
    List DelayRowIn → List DelayOut → List String → List DelayOut × List String
  | [], delays, unknown => (delays, unknown)
  | r :: rest, delays, unknown =>
    match processDelayRow isArrival r with
    | none => collectAux isArrival rest delays unknown
    | some (Sum.inl d) => collectAux isArrival rest (delays ++ [d]) unknown
    | some (Sum.inr c) => collectAux isArrival rest delays (insertUnique unknown c)

/-- `collectDelaysFromModal` (source lines 1576-1630): process every row; if
any unknown codes were collected the whole batch is rejected and the unknown
codes are reported (`return null` after the alert), otherwise the accepted
entries are returned. -/
def collectDelaysFromModal (isArrival : Bool) (rows : List DelayRowIn) :
    Except (List String) (List DelayOut) :=
  let res := collectAux isArrival rows [] []
  if res.2 = [] then Except.ok res.1 else Except.error res.2

/-- JavaScript `a || b` on two nullable strings: an empty string is falsy. -/
def jsOrStr (a b : Option String) : Option String :=
  match a with
  | some s => if s = "" then b else some s
  | none => b

/-- One passenger record, restricted to the status-alias fields and boolean
lifecycle flags read by `classifyPaxStatus` (source lines 546-580).  `none`
models an absent/undefined field. -/
structure PaxRecord where
  DCSStatus : Option String := none
  DcsStatus : Option String := none
  Status : Option String := none
  status : Option String := none
  CheckInStatus : Option String := none
  checkInStatus : Option String := none
  BoardingStatus : Option String := none
  boardingStatus : Option String := none
  Flown : Option Bool := none
  flown : Option Bool := none
  Boarded : Option Bool := none
  boarded : Option Bool := none
  CheckedIn : Option Bool := none
  checkedIn : Option Bool := none
deriving DecidableEq, Repr

/-- The `raw` status string of `classifyPaxStatus` (source lines 547-553):
first truthy status alias, uppercased. -/
def rawPaxStatus (p : PaxRecord) : String :=
  jsToUpper
    ((jsOrStr p.DCSStatus (jsOrStr p.DcsStatus (jsOrStr p.Status (jsOrStr p.status
      (jsOrStr p.CheckInStatus (jsOrStr p.checkInStatus
        (jsOrStr p.BoardingStatus p.boardingStatus))))))).getD "")

/-- `classifyPaxStatus` (source lines 546-580). -/
def classifyPaxStatus (p : PaxRecord) : String :=
  let raw := rawPaxStatus p
  if (p.Flown = some true ∨ p.flown = some true) ∨
      jsIncludes raw "FLOWN" = true ∨ raw = "FLWN" then "FLOWN"
  else if p.Boarded = some true ∨ p.boarded = some true then "BOARDED"
  else if p.CheckedIn = some true ∨ p.checkedIn = some true then "CHECKED"
  else if raw = "" then "BOOKED"
  else if jsIncludes raw "FLOWN" = true ∨ raw = "FLWN" then "FLOWN"
  else if jsIncludes raw "BOARD" = true then "BOARDED"
  else if jsIncludes raw "CHECK" = true then "CHECKED"
  else if raw = "CI" ∨ raw = "CKIN" ∨ raw = "CKI" then "CHECKED"
  else if raw = "BD" ∨ raw = "BRD" then "BOARDED"
  else "BOOKED"

/-- One special-service-request entry (the seat-map code reads `s.Code`,
`s.code` and `s.FreeText`). -/
structure Ssr where
  Code : Option String := none
  code : Option String := none
  FreeText : Option String := none
deriving DecidableEq, Repr

/-- `(s.Code || s.code || "").toUpperCase()`. -/
def ssrCode (s : Ssr) : String := jsToUpper ((jsOrStr s.Code s.code).getD "")

/-- `hasUmnrSSR` (source lines 187-193); `none` models a non-array value. -/
def hasUmnrSSR (ssrs : Option (List Ssr)) : Bool :=
  match ssrs with
  | none => false
  | some l => l.any (fun s => ssrCode s == "UMNR" || ssrCode s == "UM")

/-- `hasInfantSSR` (source lines 1281-1287). -/
def hasInfantSSR (ssrs : Option (List Ssr)) : Bool :=
  match ssrs with
  | none => false
  | some l => l.any (fun s => ssrCode s == "INFT" || ssrCode s == "INF")

/-- A passenger as read by `makeSeat` (fare-type aliases and the ordered
SSR-list aliases resolved through `getField`). -/
structure SeatPax where
  PassengerType : Option String := none
  passengerType : Option String := none
  Ssrs : Option (List Ssr) := none
  SSRs : Option (List Ssr) := none
  SpecialServiceRequests : Option (List Ssr) := none
deriving DecidableEq, Repr

/-- JavaScript `getField` alias resolution over list-valued fields (a present
array is never `undefined`, `null` or `""`). -/
def jsOrList (a b : Option (List Ssr)) : Option (List Ssr) :=
  match a with
  | some l => some l
  | none => b

/-- `getField(pax, ["Ssrs","SSRs","SpecialServiceRequests"], [])`
(source line 1384). -/
def getFieldSsrs (p : SeatPax) : List Ssr :=
  (jsOrList p.Ssrs (jsOrList p.SSRs p.SpecialServiceRequests)).getD []

/-- `(pax.PassengerType || pax.passengerType || "").toUpperCase()`
(source line 1385). -/
def paxTypeOf (p : SeatPax) : String :=
  jsToUpper ((jsOrStr p.PassengerType p.passengerType).getD "")

/-- The base-colour classification of an occupied seat in `makeSeat`
(source lines 1386-1395): UMNR or child fare type → child; else infant SSR →
adult-with-infant; else adult.  The result is the CSS class the code adds. -/
def makeSeatBaseClass (p : SeatPax) : String :=
  let ssrsForSeat := getFieldSsrs p
  let isUmnr := hasUmnrSSR (some ssrsForSeat)
  if isUmnr = true ∨ paxTypeOf p = "CH" ∨ paxTypeOf p = "CHD" then "seat-child"
  else if hasInfantSSR (some ssrsForSeat) = true then "seat-adult-infant"
  else "seat-adult"

/-- One composed `datePlusMinutesToLocalIso` timestamp (source lines
1694-1701), kept as its numeric parts: the entered date as an abstract day
index, plus the two fields the source interpolates into
`date + "T" + pad(h) + ":" + pad(m)` — `h = Math.floor(minutes / 60)`
(floor division) and `m = minutes % 60` (the JavaScript truncating
remainder, which keeps the sign of the dividend; padding with `"0"` does
not change a negative field's digits).  For minutes outside `[0, 1440)` the
composed text is not a well-formed timestamp: minutes 1445 gives the
non-ISO `"T24:05"`, whose field-wise reading is at least still consistent,
while negative minutes give text such as `"T-1:-5"`, whose field-wise
reading disagrees with the adjusted minutes because the floored hour and
the truncated minute pull in opposite directions. -/
structure LocalIsoParts where
  day : Int
  hourField : Int
  minuteField : Int
deriving DecidableEq, Repr

/-- `datePlusMinutesToLocalIso` (source lines 1694-1701): `null` when either
input is missing, otherwise the numeric parts of the composed timestamp. -/
def datePlusMinutesToLocalIso (day : Option Int) (minutes : Option Int) :
    Option LocalIsoParts :=
  match day, minutes with
  | some d, some m =>
      some { day := d, hourField := Int.fdiv m 60, minuteField := Int.tmod m 60 }
  | _, _ => none

/-- The wall-clock instant a composed timestamp denotes when its fields are
read as an hour and a minute of the entered day, in minutes on the day
index's scale. -/
def localIsoReading (p : LocalIsoParts) : Int :=
  1440 * p.day + 60 * p.hourField + p.minuteField

/-- The departure-time half of the `collectTimeModalPayload` result (source
lines 1743-1776), restricted to the composed local timestamps. -/
structure DepTimesPayload where
  etd_local : Option LocalIsoParts
  offblocks_local : Option LocalIsoParts
  airborne_local : Option LocalIsoParts
deriving DecidableEq, Repr

/-- The arrival-time half of the `collectTimeModalPayload` result (source
lines 1777-1808), restricted to the composed local timestamps. -/
structure ArrTimesPayload where
  eta_local : Option LocalIsoParts
  landing_local : Option LocalIsoParts
  onblocks_local : Option LocalIsoParts
deriving DecidableEq, Repr

/-- The departure branch of `collectTimeModalPayload` (source lines
1743-1776).  Inputs are the entered date (day index) and the entered ETD,
off-blocks and airborne times of day in minutes (`none` models an absent or
malformed input, rejected by `getDate`/`getHm`/`parseTimeToMinutes`). -/
def collectDepTimes (depDate etdM offM airM : Option Int) : DepTimesPayload :=
  let air2 : Option Int :=
    match airM, offM with
    | some a, some o => some (if a < o then a + 24 * 60 else a)
    | _, _ => none
  { etd_local := datePlusMinutesToLocalIso depDate etdM
    offblocks_local := datePlusMinutesToLocalIso depDate offM
    airborne_local := datePlusMinutesToLocalIso depDate air2 }

/-- The arrival branch of `collectTimeModalPayload` (source lines
1777-1808). -/
def collectArrTimes (arrDate etaM landM onM : Option Int) : ArrTimesPayload :=
  let land2 : Option Int :=
    match landM with
    | none => none
    | some l =>
      match onM with
      | some o => some (if o < l then l - 24 * 60 else l)
      | none => some l
  { eta_local := datePlusMinutesToLocalIso arrDate etaM
    landing_local := datePlusMinutesToLocalIso arrDate land2
    onblocks_local := datePlusMinutesToLocalIso arrDate onM }

/-- `minutesBetween` (source lines 1557-1560) on two instants a whole number
of minutes apart. -/
def minutesBetween (t1 t2 : Int) : Int := t2 - t1

/-- `updateDelayDep` (source lines 1907-1941), as the pair (delay section
shown?, required-delay value displayed).  Inputs are the scheduled departure
and entered off-blocks instants on the scheduled departure date (`none`
models a missing scheduled time or an empty off-blocks input, both of which
reset the section). -/
def updateDelayDep (stdSched offDt : Option Int) : Bool × Int :=
  match stdSched with
  | none => (false, 0)
  | some sched =>
    match offDt with
    | none => (false, 0)
    | some off =>
      let delayMins := minutesBetween sched off
      let delayMins := if delayMins < 0 then 0 else delayMins
      if 15 < delayMins then (true, delayMins) else (false, 0)

/-- `updateDelayArr` (source lines 2030-2052), as the pair (delay section
shown?, required-delay value displayed). -/
def updateDelayArr (staSched etaDt : Option Int) : Bool × Int :=
  match staSched, etaDt with
  | some sched, some eta =>
    let diff := minutesBetween sched eta
    if 15 < diff.natAbs then (true, diff) else (false, 0)
  | _, _ => (false, 0)

/-- The `minStd` fold of `renderGanttFromFlights` (source lines 381-385). -/
def foldMinStart (fs : List Flight) (init : Int) : Int :=
  fs.foldl (fun acc f =>
    match f.stdEst with
    | some t => if t < acc then t else acc
    | none => acc) init

/-- The `maxEta` fold of `renderGanttFromFlights` (source lines 381-386). -/
def foldMaxEnd (fs : List Flight) (init : Int) : Int :=
  fs.foldl (fun acc f =>
    match f.staEst with
    | some t => if acc < t then t else acc
    | none => acc) init

/-- The `(chartStart, chartEnd)` window of `renderGanttFromFlights` (source
lines 380-390): min display-start minus 60 minutes to max display-end plus
60 minutes; `none` on an empty flight list (the renderer clears and returns,
source lines 372-378).  The renderer is only invoked on
`buildFlightsFromRows` output, where both endpoints of every flight are
present. -/
def chartWindow : List Flight → Option (Int × Int)
  | [] => none
  | f :: rest =>
    match f.stdEst, f.staEst with
    | some s0, some e0 =>
        some (foldMinStart (f :: rest) s0 - 60, foldMaxEnd (f :: rest) e0 + 60)
    | _, _ => none

/-- The axis tick loop of `renderGanttFromFlights` (source lines 393-408):
`startHour` is `chartStart` with minutes zeroed (the hour floor), and ticks
are emitted at every whole hour from there up to `chartEnd` inclusive. -/
def hourTicks (cs ce : Int) : List Int :=
  let sh := 60 * (Int.fdiv cs 60)
  if ce < sh then []
  else (List.range ((ce - sh).toNat / 60 + 1)).map (fun (k : Nat) => sh + 60 * (k : Int))

/-- A tick's `left` offset in percent (source line 397):
`(t - chartStart) / durationMs * 100`. -/
def tickLeftPct (cs ce t : Int) : ℚ :=
  ((t : ℚ) - (cs : ℚ)) / ((ce : ℚ) - (cs : ℚ)) * 100

/-! ## Status normaliser: claim C5 -/

/-- Every input maps to one of the seven keyword states or `"unknown"`. -/
lemma normaliseStatus_total (s : String) :
    normaliseStatus s = "planning" ∨ normaliseStatus s = "onblocks" ∨
    normaliseStatus s = "offblocks" ∨ normaliseStatus s = "takeoff" ∨
    normaliseStatus s = "landed" ∨ normaliseStatus s = "returntostand" ∨
    normaliseStatus s = "diverted" ∨ normaliseStatus s = "unknown" := by
  simp only [normaliseStatus]
  split_ifs <;> simp

/-- Re-applying the normaliser either fixes the value or collapses it to
`"unknown"`. -/
lemma normaliseStatus_reapply (s : String) :
    normaliseStatus (normaliseStatus s) = normaliseStatus s ∨
    normaliseStatus (normaliseStatus s) = "unknown" := by
  rcases normaliseStatus_total s with h | h | h | h | h | h | h | h <;> rw [h] <;>
    first
      | exact Or.inl (by decide)
      | exact Or.inr (by decide)

/-- Claim C5, counterexample: status normalization is not idempotent.  The
input `"on blocks"` normalizes to `"onblocks"`, but normalizing that output
again gives `"unknown"`, because the keyword `"on blocks"` (with a space)
does not occur in `"onblocks"`. -/
theorem claim_C5_counterexample :
    normaliseStatus "on blocks" = "onblocks" ∧
    normaliseStatus (normaliseStatus "on blocks") = "unknown" ∧
    normaliseStatus (normaliseStatus "on blocks") ≠ normaliseStatus "on blocks" :=
  ⟨by decide, by decide, by decide⟩

/-- Claim C5 (amended): status normalization is total — every input string
maps to exactly one of the seven keyword states or `"unknown"`, matched
case-insensitively in the fixed order with first match winning, and empty
input or no match gives `"unknown"` — but it is not idempotent: re-applying
it either fixes the value or collapses it to `"unknown"` (the outputs
`"onblocks"`, `"offblocks"`, `"takeoff"` and `"returntostand"` lack the
space their keyword contains and re-normalize to `"unknown"`). -/
theorem claim_C5_amended_totality :
    (∀ s : String,
      normaliseStatus s = "planning" ∨ normaliseStatus s = "onblocks" ∨
      normaliseStatus s = "offblocks" ∨ normaliseStatus s = "takeoff" ∨
      normaliseStatus s = "landed" ∨ normaliseStatus s = "returntostand" ∨
      normaliseStatus s = "diverted" ∨ normaliseStatus s = "unknown") ∧
    (∀ s : String,
      normaliseStatus (normaliseStatus s) = normaliseStatus s ∨
      normaliseStatus (normaliseStatus s) = "unknown") ∧
    normaliseStatus "" = "unknown" ∧
    normaliseStatus "LANDED" = "landed" ∧
    normaliseStatus "divert planning" = "planning" ∧
    normaliseStatus "some other text" = "unknown" :=
  ⟨normaliseStatus_total, normaliseStatus_reapply,
    by decide, by decide, by decide, by decide⟩

/-! ## Passenger classifier: claim C4 -/

/-- The classifier always lands in one of the four lifecycle states. -/
lemma classifyPaxStatus_total (p : PaxRecord) :
    classifyPaxStatus p = "BOOKED" ∨ classifyPaxStatus p = "CHECKED" ∨
    classifyPaxStatus p = "BOARDED" ∨ classifyPaxStatus p = "FLOWN" := by
  simp only [classifyPaxStatus]
  split_ifs <;> simp

/-- An explicit boolean flown flag dominates everything else. -/
lemma classifyPaxStatus_flown_flag (p : PaxRecord)
    (h : p.Flown = some true ∨ p.flown = some true) :
    classifyPaxStatus p = "FLOWN" := by
  simp only [classifyPaxStatus]
  rw [if_pos (Or.inl h)]

/-- An empty resolved status with no boolean flag set classifies as BOOKED. -/
lemma classifyPaxStatus_empty (p : PaxRecord)
    (hraw : rawPaxStatus p = "")
    (h1 : p.Flown ≠ some true) (h2 : p.flown ≠ some true)
    (h3 : p.Boarded ≠ some true) (h4 : p.boarded ≠ some true)
    (h5 : p.CheckedIn ≠ some true) (h6 : p.checkedIn ≠ some true) :
    classifyPaxStatus p = "BOOKED" := by
  have hinc : jsIncludes "" "FLOWN" = false := by decide
  have hne : ("" : String) ≠ "FLWN" := by decide
  simp only [classifyPaxStatus, hraw]
  simp [hinc, hne, h1, h2, h3, h4, h5, h6]

/-- Claim C4: every PassengerRecord classifies to exactly one of
BOOKED/CHECKED/BOARDED/FLOWN; a boolean flown flag is authoritative over the
status text (a record with `flown=true` and status `"BOOKED"` is FLOWN);
FLOWN is checked ahead of weaker states (status `"BOARDED FLOWN"` is FLOWN);
and an empty/absent status with no boolean flags set is BOOKED. -/
theorem claim_C4_pax_classification :
    (∀ p : PaxRecord,
      classifyPaxStatus p = "BOOKED" ∨ classifyPaxStatus p = "CHECKED" ∨
      classifyPaxStatus p = "BOARDED" ∨ classifyPaxStatus p = "FLOWN") ∧
    (∀ p : PaxRecord, p.Flown = some true ∨ p.flown = some true →
      classifyPaxStatus p = "FLOWN") ∧
    (∀ p : PaxRecord, rawPaxStatus p = "" → p.Flown ≠ some true →
      p.flown ≠ some true → p.Boarded ≠ some true → p.boarded ≠ some true →
      p.CheckedIn ≠ some true → p.checkedIn ≠ some true →
      classifyPaxStatus p = "BOOKED") ∧
    classifyPaxStatus { flown := some true, Status := some "BOOKED" } = "FLOWN" ∧
    classifyPaxStatus { Status := some "BOARDED FLOWN" } = "FLOWN" ∧
    classifyPaxStatus { Status := some "BOARDED FLOWN", Boarded := some true } = "FLOWN" ∧
    classifyPaxStatus {} = "BOOKED" :=
  ⟨classifyPaxStatus_total, classifyPaxStatus_flown_flag, classifyPaxStatus_empty,
    by decide, by decide, by decide, by decide⟩

/-- Claim C4, witness: the flown-flag rule applied to a concrete record that
also carries a stale boarded flag. -/
theorem claim_C4_witness :
    classifyPaxStatus { flown := some true, Boarded := some true } = "FLOWN" :=
  claim_C4_pax_classification.2.1 { flown := some true, Boarded := some true }
    (Or.inr rfl)

/-! ## Seat-map base classification: claim C9 -/

/-- The seat base class is one of the three defined classes. -/
lemma makeSeatBaseClass_total (p : SeatPax) :
    makeSeatBaseClass p = "seat-child" ∨ makeSeatBaseClass p = "seat-adult-infant" ∨
    makeSeatBaseClass p = "seat-adult" := by
  simp only [makeSeatBaseClass]
  split_ifs <;> simp

/-- A passenger carrying an unaccompanied-minor code is always a child. -/
lemma makeSeatBaseClass_umnr (p : SeatPax)
    (h : hasUmnrSSR (some (getFieldSsrs p)) = true) :
    makeSeatBaseClass p = "seat-child" := by
  simp only [makeSeatBaseClass]
  rw [if_pos (Or.inl h)]

/-- Without UMNR or a child fare type, an infant code gives
adult-with-infant. -/
lemma makeSeatBaseClass_infant (p : SeatPax)
    (h1 : hasUmnrSSR (some (getFieldSsrs p)) = false)
    (h2 : paxTypeOf p ≠ "CH") (h3 : paxTypeOf p ≠ "CHD")
    (h4 : hasInfantSSR (some (getFieldSsrs p)) = true) :
    makeSeatBaseClass p = "seat-adult-infant" := by
  have hc : ¬(hasUmnrSSR (some (getFieldSsrs p)) = true ∨
      paxTypeOf p = "CH" ∨ paxTypeOf p = "CHD") := by
    simp [h1, h2, h3]
  simp only [makeSeatBaseClass]
  rw [if_neg hc, if_pos h4]

/-- Without UMNR, child fare type or infant code, the seat is an adult
seat. -/
lemma makeSeatBaseClass_adult (p : SeatPax)
    (h1 : hasUmnrSSR (some (getFieldSsrs p)) = false)
    (h2 : paxTypeOf p ≠ "CH") (h3 : paxTypeOf p ≠ "CHD")
    (h4 : hasInfantSSR (some (getFieldSsrs p)) = false) :
    makeSeatBaseClass p = "seat-adult" := by
  have hc : ¬(hasUmnrSSR (some (getFieldSsrs p)) = true ∨
      paxTypeOf p = "CH" ∨ paxTypeOf p = "CHD") := by
    simp [h1, h2, h3]
  simp only [makeSeatBaseClass]
  rw [if_neg hc, if_neg (by simp [h4])]

/-- Claim C9: every seated passenger classifies to exactly one of
child / adult-with-infant / adult by the fixed priority — an
unaccompanied-minor code or a CH/CHD fare type gives child, else an infant
code gives adult-with-infant, else adult — and a passenger with an UMNR code
classifies as a child even when the fare-type code says adult. -/
theorem claim_C9_seat_classification :
    (∀ p : SeatPax,
      makeSeatBaseClass p = "seat-child" ∨
      makeSeatBaseClass p = "seat-adult-infant" ∨
      makeSeatBaseClass p = "seat-adult") ∧
    (∀ p : SeatPax, hasUmnrSSR (some (getFieldSsrs p)) = true →
      makeSeatBaseClass p = "seat-child") ∧
    (∀ p : SeatPax, hasUmnrSSR (some (getFieldSsrs p)) = false →
      paxTypeOf p ≠ "CH" → paxTypeOf p ≠ "CHD" →
      hasInfantSSR (some (getFieldSsrs p)) = true →
      makeSeatBaseClass p = "seat-adult-infant") ∧
    (∀ p : SeatPax, hasUmnrSSR (some (getFieldSsrs p)) = false →
      paxTypeOf p ≠ "CH" → paxTypeOf p ≠ "CHD" →
      hasInfantSSR (some (getFieldSsrs p)) = false →
      makeSeatBaseClass p = "seat-adult") ∧
    makeSeatBaseClass
      { PassengerType := some "AD", Ssrs := some [{ Code := some "UMNR" }] } =
      "seat-child" ∧
    makeSeatBaseClass { Ssrs := some [{ Code := some "INFT" }] } = "seat-adult-infant" ∧
    makeSeatBaseClass {} = "seat-adult" :=
  ⟨makeSeatBaseClass_total, makeSeatBaseClass_umnr, makeSeatBaseClass_infant,
    makeSeatBaseClass_adult, by decide, by decide, by decide⟩

/-- Claim C9, witness: the UMNR rule applied to a concrete passenger whose
fare type says adult, using the alias fields. -/
theorem claim_C9_witness :
    makeSeatBaseClass { passengerType := some "ADT", SSRs := some [{ code := some "UM" }] } =
      "seat-child" :=
  claim_C9_seat_classification.2.1
    { passengerType := some "ADT", SSRs := some [{ code := some "UM" }] } (by decide)

/-! ## Midnight crossing: claim C7 -/

/-- Claim C7, code bug.  The two day-disambiguation rules are applied to the
entered minutes exactly as claimed, but the arrival rule never delivers the
previous-day instant the claim — and the source's own `// previous day`
comment (line 1793) — intends.  The adjusted landing minutes are always
negative (a time of day lies in [0, 1439] and 1440 is subtracted), and
composing them with the floored hour `Math.floor(minutes / 60)` against the
truncating minute `minutes % 60` produces malformed text: at landing 23:55
with on-chocks 00:05 the adjusted minutes are −5 and the payload's landing
fields are hour −1, minute −5 (text `"T-1:-5"`), which read field-wise as
−65 minutes — not the previous-day instant −5 (23:55 the day before).  The
departure rule, by contrast, composes consistently: off-blocks 23:55 with
airborne 00:05 gives adjusted minutes 1445, fields `24:05`, field-wise
reading 1445 — the next-day instant, 10 minutes after off-blocks. -/
theorem claim_C7_landing_compose_bug :
    (collectDepTimes (some 0) (some 1430) (some 1435) (some 5)).airborne_local =
      some { day := 0, hourField := 24, minuteField := 5 } ∧
    localIsoReading { day := 0, hourField := 24, minuteField := 5 } = 1445 ∧
    (1445 : Int) = 1435 + 10 ∧
    (collectArrTimes (some 0) (some 10) (some 1435) (some 5)).landing_local =
      some { day := 0, hourField := -1, minuteField := -5 } ∧
    localIsoReading { day := 0, hourField := -1, minuteField := -5 } = -65 ∧
    (-65 : Int) ≠ -5 :=
  ⟨by decide, by decide, by decide, by decide, by decide, by decide⟩

/-! ## Required delay minutes: claim C8 -/

/-- Claim C8, counterexample: for an arrival 20 minutes early (scheduled
arrival 10:00, entered ETA 09:40), the code displays the signed difference
−20 as the required delay, not the absolute difference 20 the claim
states. -/
theorem claim_C8_counterexample :
    updateDelayArr (some 600) (some 580) = (true, -20) ∧
    ((580 : Int) - 600).natAbs = 20 ∧
    (updateDelayArr (some 600) (some 580)).2 ≠ 20 :=
  ⟨by decide, by decide, by decide⟩

/-- Claim C8 (amended): for arrival, the delay-code requirement is triggered
exactly when the absolute difference between entered ETA and scheduled
arrival exceeds 15 minutes, but the required value displayed is the signed
difference (entered − scheduled, negative when early), not the absolute
difference; for departure, the requirement is triggered exactly when
entered-off-blocks − scheduled-departure exceeds 15 minutes, with required =
that (positive) difference when triggered and 0 otherwise (off-blocks
20 minutes late gives required 20; 10 minutes late gives 0). -/
theorem claim_C8_amended_required_delay :
    (∀ sta eta : Int,
      ((updateDelayArr (some sta) (some eta)).1 = true ↔ 15 < (eta - sta).natAbs)) ∧
    (∀ sta eta : Int, 15 < (eta - sta).natAbs →
      (updateDelayArr (some sta) (some eta)).2 = eta - sta) ∧
    (∀ sta eta : Int, (eta - sta).natAbs ≤ 15 →
      updateDelayArr (some sta) (some eta) = (false, 0)) ∧
    (∀ std off : Int,
      ((updateDelayDep (some std) (some off)).1 = true ↔ 15 < off - std)) ∧
    (∀ std off : Int, 15 < off - std →
      (updateDelayDep (some std) (some off)).2 = off - std) ∧
    (∀ std off : Int, off - std ≤ 15 →
      updateDelayDep (some std) (some off) = (false, 0)) ∧
    updateDelayDep (some 600) (some 620) = (true, 20) ∧
    updateDelayDep (some 600) (some 610) = (false, 0) := by
  refine ⟨?_, ?_, ?_, ?_, ?_, ?_, by decide, by decide⟩
  · intro sta eta
    simp only [updateDelayArr, minutesBetween]
    split_ifs with h <;> simp [h]
  · intro sta eta h
    simp only [updateDelayArr, minutesBetween]
    rw [if_pos h]
  · intro sta eta h
    simp only [updateDelayArr, minutesBetween]
    rw [if_neg (not_lt.mpr h)]
  · intro std off
    simp only [updateDelayDep, minutesBetween]
    split_ifs with h1 h2 <;> simp <;> omega
  · intro std off h
    simp only [updateDelayDep, minutesBetween]
    split_ifs with h1 h2 <;> first | rfl | omega
  · intro std off h
    simp only [updateDelayDep, minutesBetween]
    split_ifs with h1 h2 <;> first | rfl | omega

/-- Claim C8, witness: the signed arrival value and the departure examples at
concrete inputs. -/
theorem claim_C8_witness :
    (updateDelayArr (some 600) (some 640)).2 = 640 - 600 :=
  claim_C8_amended_required_delay.2.1 600 640 (by decide)

/-! ## Time resolver: claim C1 -/

/-- Claim C1: display-start and display-end are picked independently by the
precedence actual → estimated → scheduled (first non-null wins per
endpoint); when no arrival-side time resolves but a display-start exists,
display-end is synthesized as display-start + block-minutes; block-minutes
falls back to 60 when the field is absent or unparsable; and a record with
only a scheduled pair resolves to exactly the scheduled pair. -/
theorem claim_C1_time_resolver (row : FlightRow) (idx : Nat) :
    (∀ t, row.dep_actual_nz = some t → (mkFlight idx row).stdEst = some t) ∧
    (row.dep_actual_nz = none → ∀ t, row.std_nz = some t →
      (mkFlight idx row).stdEst = some t) ∧
    (row.dep_actual_nz = none → row.std_nz = none →
      (mkFlight idx row).stdEst = row.std_sched_nz) ∧
    (∀ t, row.arr_actual_nz = some t → (mkFlight idx row).staEst = some t) ∧
    (row.arr_actual_nz = none → ∀ t, row.sta_nz = some t →
      (mkFlight idx row).staEst = some t) ∧
    (row.arr_actual_nz = none → row.sta_nz = none → ∀ t, row.sta_sched_nz = some t →
      (mkFlight idx row).staEst = some t) ∧
    (row.arr_actual_nz = none → row.sta_nz = none → row.sta_sched_nz = none →
      ∀ s, (mkFlight idx row).stdEst = some s →
        (mkFlight idx row).staEst = some (s + blockFromField row.block_mins)) ∧
    (jsParseInt row.block_mins = none → blockFromField row.block_mins = 60) ∧
    blockFromField "0" = 60 ∧
    (row.dep_actual_nz = none → row.std_nz = none → row.arr_actual_nz = none →
      row.sta_nz = none →
      (mkFlight idx row).stdEst = row.std_sched_nz ∧
      (mkFlight idx row).staEst =
        (match row.sta_sched_nz, row.std_sched_nz with
          | none, some s => some (s + blockFromField row.block_mins)
          | _, _ => row.sta_sched_nz)) := by
  refine ⟨?_, ?_, ?_, ?_, ?_, ?_, ?_, ?_, by decide, ?_⟩
  · intro t h
    simp [mkFlight, jsOrDate, h]
  · intro h1 t h2
    simp [mkFlight, jsOrDate, h1, h2]
  · intro h1 h2
    simp [mkFlight, jsOrDate, h1, h2]
  · intro t h
    cases hs : jsOrDate row.dep_actual_nz (jsOrDate row.std_nz row.std_sched_nz) <;>
      simp [mkFlight, jsOrDate, h, hs]
  · intro h1 t h2
    cases hs : jsOrDate row.dep_actual_nz (jsOrDate row.std_nz row.std_sched_nz) <;>
      simp [mkFlight, jsOrDate, h1, h2, hs]
  · intro h1 h2 t h3
    cases hs : jsOrDate row.dep_actual_nz (jsOrDate row.std_nz row.std_sched_nz) <;>
      simp [mkFlight, jsOrDate, h1, h2, h3, hs]
  · intro h1 h2 h3 s hs
    simp only [mkFlight] at hs ⊢
    rw [hs]
    simp [jsOrDate, h1, h2, h3]
  · intro h
    by_cases hb : row.block_mins = ""
    · have h0 : jsParseInt "0" = some 0 := by decide
      simp [blockFromField, hb, h0, DEFAULT_BLOCK_MIN]
    · simp [blockFromField, hb, h, DEFAULT_BLOCK_MIN]
  · intro h1 h2 h3 h4
    constructor
    · simp [mkFlight, jsOrDate, h1, h2]
    · cases h5 : row.sta_sched_nz <;> cases h6 : row.std_sched_nz <;>
        simp [mkFlight, jsOrDate, h1, h2, h3, h4, h5, h6]

/-- Claim C1, witness: a record with only a scheduled pair resolves to
exactly the scheduled pair. -/
theorem claim_C1_witness :
    (mkFlight 0 { std_sched_nz := some 480, sta_sched_nz := some 570 }).stdEst =
        some 480 ∧
    (mkFlight 0 { std_sched_nz := some 480, sta_sched_nz := some 570 }).staEst =
        some 570 :=
  ⟨(claim_C1_time_resolver { std_sched_nz := some 480, sta_sched_nz := some 570 } 0).2.2.1
      rfl rfl,
    (claim_C1_time_resolver { std_sched_nz := some 480, sta_sched_nz := some 570 } 0).2.2.2.2.2.1
      rfl rfl 570 rfl⟩

/-! ## Active-set retention: claim C2 -/

/-- The retention predicate of the `.filter` on source line 332 holds for a
mapped flight exactly when the row's display-start resolves: a resolved
display-start forces a resolved display-end via the block-minutes synthesis,
and without a display-start the filter fails regardless of the arrival
side. -/
lemma mkFlight_keep (i : Nat) (r : FlightRow) :
    ((mkFlight i r).stdEst.isSome && (mkFlight i r).staEst.isSome) =
      (resolveDisplayStart r).isSome := by
  simp only [mkFlight, resolveDisplayStart]
  cases h1 : jsOrDate r.dep_actual_nz (jsOrDate r.std_nz r.std_sched_nz) <;>
    cases h2 : jsOrDate r.arr_actual_nz (jsOrDate r.sta_nz r.sta_sched_nz) <;>
      simp [h1, h2]

/-- Counting retained flights equals counting rows with a resolvable
display-start, for every starting index. -/
lemma buildAux_length (rows : List FlightRow) : ∀ i : Nat,
    ((mapWithIndex i rows).filter (fun f => f.stdEst.isSome && f.staEst.isSome)).length =
      rows.countP (fun r => (resolveDisplayStart r).isSome) := by
  induction rows with
  | nil => intro i; simp [mapWithIndex]
  | cons r rs ih =>
    intro i
    simp only [mapWithIndex, List.filter_cons, List.countP_cons, mkFlight_keep]
    by_cases h : (resolveDisplayStart r).isSome = true
    · simp [h, ih (i + 1)]
    · simp [h, ih (i + 1)]

/-- Claim C2 (amended): a flight is retained in the active set exactly when
its display-start resolves (the arrival-side synthesis then always provides
a display-end); a flight whose display-start does not resolve is silently
dropped — also when its display-end alone would resolve — and every
retained flight carries both endpoints. -/
theorem claim_C2_amended_retention :
    (∀ rows : List FlightRow,
      (buildFlightsFromRows rows).length =
        rows.countP (fun r => (resolveDisplayStart r).isSome)) ∧
    (∀ rows : List FlightRow, ∀ f ∈ buildFlightsFromRows rows,
      f.stdEst.isSome = true ∧ f.staEst.isSome = true) ∧
    (∀ row : FlightRow, resolveDisplayStart row = none →
      buildFlightsFromRows [row] = []) := by
  refine ⟨fun rows => buildAux_length rows 0, ?_, ?_⟩
  · intro rows f hf
    have hp := List.of_mem_filter hf
    simpa [Bool.and_eq_true] using hp
  · intro row h
    have hk := mkFlight_keep 0 row
    rw [h] at hk
    simp only [Option.isSome_none] at hk
    simp [buildFlightsFromRows, mapWithIndex, List.filter_cons, hk]

/-- Claim C2, counterexample: a row with only an actual arrival time has a
resolvable display-end (so it is not missing both endpoints), yet
`buildFlightsFromRows` drops it, because the filter demands a resolved
display-start. -/
theorem claim_C2_counterexample :
    (resolveDisplayEnd { arr_actual_nz := some 600 }).isSome = true ∧
    resolveDisplayStart { arr_actual_nz := some 600 } = none ∧
    buildFlightsFromRows [{ arr_actual_nz := some 600 }] = [] :=
  ⟨by decide, by decide, by decide⟩

/-- Claim C2, witness: the silent-drop rule applied to a concrete row with
no resolvable times at all. -/
theorem claim_C2_witness :
    buildFlightsFromRows [({} : FlightRow)] = [] :=
  claim_C2_amended_retention.2.2 {} rfl

/-! ## Delay-code validation: claims C3 and C10 -/

/-- A surviving row's entry is enriched from the reference table: its stored
identifier and description are exactly the table's values for its code. -/
lemma processDelayRow_inl_meta (flag : Bool) (r : DelayRowIn) (d : DelayOut)
    (h : processDelayRow flag r = some (Sum.inl d)) :
    delayCodeMeta d.code = some (d.delayCodeId, d.description) := by
  simp only [processDelayRow] at h
  split_ifs at h with h1 h2 h3
  all_goals
    cases hm : delayMinsOf r with
    | none => simp [hm] at h
    | some m =>
      simp only [hm] at h
      split_ifs at h with h4
      split at h
      · exact absurd h (by simp)
      · rename_i meta heq
        simp only [Option.some.injEq, Sum.inl.injEq] at h
        subst h
        simp [heq]

/-- An unknown code reported by a row is really absent from the table. -/
lemma processDelayRow_inr_meta (flag : Bool) (r : DelayRowIn) (c : String)
    (h : processDelayRow flag r = some (Sum.inr c)) :
    delayCodeMeta c = none := by
  simp only [processDelayRow] at h
  split_ifs at h with h1 h2 h3
  all_goals
    cases hm : delayMinsOf r with
    | none => simp [hm] at h
    | some m =>
      simp only [hm] at h
      split_ifs at h with h4
      split at h
      · rename_i heq
        simp only [Option.some.injEq, Sum.inr.injEq] at h
        subst h
        exact heq
      · exact absurd h (by simp)

/-- A row whose trimmed code is empty is always skipped. -/
lemma processDelayRow_code_empty (flag : Bool) (r : DelayRowIn)
    (h : jsTrim r.code = "") : processDelayRow flag r = none := by
  have hd : String.mk (List.filter Char.isDigit ("" : String).data) = "" := by decide
  simp only [processDelayRow, h, hd]
  split_ifs <;> rfl

/-- A row whose minutes value is missing (NaN) or non-positive is skipped
before its code is ever looked up. -/
lemma processDelayRow_nonpos (flag : Bool) (r : DelayRowIn)
    (h : ∀ m : Int, delayMinsOf r = some m → m ≤ 0) :
    processDelayRow flag r = none := by
  simp only [processDelayRow]
  cases hm : delayMinsOf r with
  | none => split_ifs <;> simp [hm]
  | some m =>
    have hm0 : m ≤ 0 := h m hm
    split_ifs <;> simp [hm, hm0]

/-- Membership after a set insertion. -/
lemma insertUnique_mem {s : List String} {c x : String}
    (h : x ∈ insertUnique s c) : x ∈ s ∨ x = c := by
  unfold insertUnique at h
  split_ifs at h with hc
  · exact Or.inl h
  · rcases List.mem_append.1 h with h2 | h2
    · exact Or.inl h2
    · simp at h2; exact Or.inr h2

/-- Every code accumulated in the unknown set is either an initial one or
absent from the reference table. -/
lemma collectAux_snd_mem (flag : Bool) :
    ∀ (rows : List DelayRowIn) (acc : List DelayOut) (unk : List String) (c : String),
      c ∈ (collectAux flag rows acc unk).2 → c ∈ unk ∨ delayCodeMeta c = none := by
  intro rows
  induction rows with
  | nil =>
    intro acc unk c h
    simp only [collectAux] at h
    exact Or.inl h
  | cons r rs ih =>
    intro acc unk c h
    cases hp : processDelayRow flag r with
    | none =>
      simp only [collectAux, hp] at h
      exact ih acc unk c h
    | some v =>
      cases v with
      | inl d =>
        simp only [collectAux, hp] at h
        exact ih (acc ++ [d]) unk c h
      | inr u =>
        simp only [collectAux, hp] at h
        rcases ih acc (insertUnique unk u) c h with h2 | h2
        · rcases insertUnique_mem h2 with h3 | h3
          · exact Or.inl h3
          · rw [h3]
            exact Or.inr (processDelayRow_inr_meta flag r u hp)
        · exact Or.inr h2

/-- Every accepted entry is either an initial one or enriched from the
reference table. -/
lemma collectAux_fst_mem (flag : Bool) :
    ∀ (rows : List DelayRowIn) (acc : List DelayOut) (unk : List String) (d : DelayOut),
      d ∈ (collectAux flag rows acc unk).1 →
      d ∈ acc ∨ delayCodeMeta d.code = some (d.delayCodeId, d.description) := by
  intro rows
  induction rows with
  | nil =>
    intro acc unk d h
    simp only [collectAux] at h
    exact Or.inl h
  | cons r rs ih =>
    intro acc unk d h
    cases hp : processDelayRow flag r with
    | none =>
      simp only [collectAux, hp] at h
      exact ih acc unk d h
    | some v =>
      cases v with
      | inl d0 =>
        simp only [collectAux, hp] at h
        rcases ih (acc ++ [d0]) unk d h with h2 | h2
        · rcases List.mem_append.1 h2 with h3 | h3
          · exact Or.inl h3
          · simp at h3
            rw [h3]
            exact Or.inr (processDelayRow_inl_meta flag r d0 hp)
        · exact Or.inr h2
      | inr u =>
        simp only [collectAux, hp] at h
        exact ih acc (insertUnique unk u) d h

/-- Claim C3: surviving codes are digit-normalized and left-padded
(`"1"` becomes `"01"`); any surviving code absent from the reference table
rejects the whole batch, reporting exactly the unknown codes (each of which
is really absent from the table); accepted batches carry only entries
enriched with the table's identifier and description; and a row with an
empty code is discarded rather than rejected.  The spec's example batches
behave exactly as stated. -/
theorem claim_C3_delay_validation :
    (collectDelaysFromModal false
        [{ code := "1", minutes := "20" }, { code := "999", minutes := "5" }] =
      Except.error ["999"]) ∧
    (collectDelaysFromModal false [{ code := "1", minutes := "20" }] =
      Except.ok [{ code := "01", delayCodeId := 94, delayMinutes := 20,
                   description := "Planned schedule deviation for regular flights",
                   remark := "", isArrival := false }]) ∧
    (∀ (flag : Bool) (rows : List DelayRowIn) (l : List String),
      collectDelaysFromModal flag rows = Except.error l →
      l ≠ [] ∧ ∀ c ∈ l, delayCodeMeta c = none) ∧
    (∀ (flag : Bool) (rows : List DelayRowIn) (ds : List DelayOut),
      collectDelaysFromModal flag rows = Except.ok ds →
      ∀ d ∈ ds, delayCodeMeta d.code = some (d.delayCodeId, d.description)) ∧
    (∀ (flag : Bool) (r : DelayRowIn) (rows : List DelayRowIn),
      jsTrim r.code = "" →
      collectDelaysFromModal flag (r :: rows) = collectDelaysFromModal flag rows) := by
  refine ⟨by rfl, by rfl, ?_, ?_, ?_⟩
  · intro flag rows l h
    simp only [collectDelaysFromModal] at h
    split_ifs at h with he
    have hl : (collectAux flag rows [] []).2 = l := by
      injection h
    constructor
    · rw [← hl]; exact he
    · intro c hc
      rw [← hl] at hc
      rcases collectAux_snd_mem flag rows [] [] c hc with h2 | h2
      · exact absurd h2 (by simp)
      · exact h2
  · intro flag rows ds h
    simp only [collectDelaysFromModal] at h
    split_ifs at h with he
    have hd : (collectAux flag rows [] []).1 = ds := by
      injection h
    intro d hd2
    rw [← hd] at hd2
    rcases collectAux_fst_mem flag rows [] [] d hd2 with h2 | h2
    · exact absurd h2 (by simp)
    · exact h2
  · intro flag r rows h
    simp [collectDelaysFromModal, collectAux, processDelayRow_code_empty flag r h]

/-- Claim C3, witness: the whole-batch rejection applied to the spec's
absent from the reference table. -/
theorem claim_C3_witness :
    ["999"] ≠ ([] : List String) ∧ delayCodeMeta "999" = none :=
  ⟨(claim_C3_delay_validation.2.2.1 false
      [{ code := "1", minutes := "20" }, { code := "999", minutes := "5" }]
      ["999"] (by rfl)).1,
    (claim_C3_delay_validation.2.2.1 false
      [{ code := "1", minutes := "20" }, { code := "999", minutes := "5" }]
      ["999"] (by rfl)).2 "999" (by decide)⟩

/-- Claim C10: a delay row whose minutes value is missing, zero or negative
is discarded before the table lookup, so a row with an unknown code and
non-positive minutes neither rejects the batch nor appears among the
reported unknown codes — `{code:"999", minutes:0}` is silently dropped. -/
theorem claim_C10_nonpositive_minutes :
    (∀ (flag : Bool) (r : DelayRowIn) (rows : List DelayRowIn),
      (∀ m : Int, delayMinsOf r = some m → m ≤ 0) →
      collectDelaysFromModal flag (r :: rows) = collectDelaysFromModal flag rows) ∧
    (collectDelaysFromModal false [{ code := "999", minutes := "0" }] =
      Except.ok []) ∧
    (collectDelaysFromModal false
        [{ code := "999", minutes := "0" }, { code := "1", minutes := "20" }] =
      collectDelaysFromModal false [{ code := "1", minutes := "20" }]) := by
  refine ⟨?_, by rfl, by rfl⟩
  intro flag r rows h
  simp [collectDelaysFromModal, collectAux, processDelayRow_nonpos flag r h]

/-- Claim C10, witness: a row with an unknown code and negative minutes
contributes nothing to the batch. -/
theorem claim_C10_witness :
    collectDelaysFromModal false [{ code := "999", minutes := "-5" }] =
      collectDelaysFromModal false [] :=
  claim_C10_nonpositive_minutes.1 false { code := "999", minutes := "-5" } []
    (fun m hm => by
      have h5 : delayMinsOf { code := "999", minutes := "-5", remark := "" } =
          some (-5) := by decide
      rw [h5] at hm
      have := Option.some.inj hm
      omega)

/-! ## Timeline window and axis ticks: claim C6 -/

/-- Unfolding one step of the `minStd` fold. -/
lemma foldMinStart_cons (f : Flight) (fs : List Flight) (a : Int) :
    foldMinStart (f :: fs) a =
      foldMinStart fs
        (match f.stdEst with
          | some t => if t < a then t else a
          | none => a) := by
  simp [foldMinStart]

/-- Unfolding one step of the `maxEta` fold. -/
lemma foldMaxEnd_cons (f : Flight) (fs : List Flight) (a : Int) :
    foldMaxEnd (f :: fs) a =
      foldMaxEnd fs
        (match f.staEst with
          | some t => if a < t then t else a
          | none => a) := by
  simp [foldMaxEnd]

/-- The running minimum never exceeds its initial value. -/
lemma foldMinStart_le_init (fs : List Flight) : ∀ a : Int, foldMinStart fs a ≤ a := by
  induction fs with
  | nil => intro a; simp [foldMinStart]
  | cons f fs ih =>
    intro a
    rw [foldMinStart_cons]
    cases hf : f.stdEst with
    | none => exact ih a
    | some t =>
      by_cases hlt : t < a
      · simp only [if_pos hlt]
        exact le_trans (ih t) (le_of_lt hlt)
      · simp only [if_neg hlt]
        exact ih a

/-- The running maximum never drops below its initial value. -/
lemma foldMaxEnd_init_le (fs : List Flight) : ∀ a : Int, a ≤ foldMaxEnd fs a := by
  induction fs with
  | nil => intro a; simp [foldMaxEnd]
  | cons f fs ih =>
    intro a
    rw [foldMaxEnd_cons]
    cases hf : f.staEst with
    | none => exact ih a
    | some t =>
      by_cases hlt : a < t
      · simp only [if_pos hlt]
        exact le_trans (le_of_lt hlt) (ih t)
      · simp only [if_neg hlt]
        exact ih a

/-- The running minimum is a lower bound for every resolved start in the
list. -/
lemma foldMinStart_le_mem (fs : List Flight) : ∀ (a : Int) (f : Flight), f ∈ fs →
    ∀ t : Int, f.stdEst = some t → foldMinStart fs a ≤ t := by
  induction fs with
  | nil =>
    intro a f hf
    exact absurd hf (by simp)
  | cons g gs ih =>
    intro a f hf t ht
    rw [foldMinStart_cons]
    rcases List.mem_cons.1 hf with rfl | hmem
    · simp only [ht]
      by_cases hlt : t < a
      · simp only [if_pos hlt]
        exact foldMinStart_le_init gs t
      · simp only [if_neg hlt]
        exact le_trans (foldMinStart_le_init gs a) (not_lt.1 hlt)
    · exact ih _ f hmem t ht

/-- The running maximum is an upper bound for every resolved end in the
list. -/
lemma foldMaxEnd_mem_le (fs : List Flight) : ∀ (a : Int) (f : Flight), f ∈ fs →
    ∀ t : Int, f.staEst = some t → t ≤ foldMaxEnd fs a := by
  induction fs with
  | nil =>
    intro a f hf
    exact absurd hf (by simp)
  | cons g gs ih =>
    intro a f hf t ht
    rw [foldMaxEnd_cons]
    rcases List.mem_cons.1 hf with rfl | hmem
    · simp only [ht]
      by_cases hlt : a < t
      · simp only [if_pos hlt]
        exact foldMaxEnd_init_le gs t
      · simp only [if_neg hlt]
        exact le_trans (not_lt.1 hlt) (foldMaxEnd_init_le gs a)
    · exact ih _ f hmem t ht

/-- The running minimum is the initial value or an actual member start. -/
lemma foldMinStart_attained (fs : List Flight) : ∀ a : Int,
    foldMinStart fs a = a ∨ ∃ f ∈ fs, f.stdEst = some (foldMinStart fs a) := by
  induction fs with
  | nil => intro a; left; simp [foldMinStart]
  | cons f fs ih =>
    intro a
    rw [foldMinStart_cons]
    cases hf : f.stdEst with
    | none =>
      rcases ih a with h | ⟨g, hg, hgt⟩
      · exact Or.inl h
      · exact Or.inr ⟨g, List.mem_cons_of_mem f hg, hgt⟩
    | some t =>
      by_cases hlt : t < a
      · simp only [if_pos hlt]
        rcases ih t with h | ⟨g, hg, hgt⟩
        · right
          exact ⟨f, List.mem_cons_self f fs, by rw [hf, h]⟩
        · exact Or.inr ⟨g, List.mem_cons_of_mem f hg, hgt⟩
      · simp only [if_neg hlt]
        rcases ih a with h | ⟨g, hg, hgt⟩
        · exact Or.inl h
        · exact Or.inr ⟨g, List.mem_cons_of_mem f hg, hgt⟩

/-- The running maximum is the initial value or an actual member end. -/
lemma foldMaxEnd_attained (fs : List Flight) : ∀ a : Int,
    foldMaxEnd fs a = a ∨ ∃ f ∈ fs, f.staEst = some (foldMaxEnd fs a) := by
  induction fs with
  | nil => intro a; left; simp [foldMaxEnd]
  | cons f fs ih =>
    intro a
    rw [foldMaxEnd_cons]
    cases hf : f.staEst with
    | none =>
      rcases ih a with h | ⟨g, hg, hgt⟩
      · exact Or.inl h
      · exact Or.inr ⟨g, List.mem_cons_of_mem f hg, hgt⟩
    | some t =>
      by_cases hlt : a < t
      · simp only [if_pos hlt]
        rcases ih t with h | ⟨g, hg, hgt⟩
        · right
          exact ⟨f, List.mem_cons_self f fs, by rw [hf, h]⟩
        · exact Or.inr ⟨g, List.mem_cons_of_mem f hg, hgt⟩
      · simp only [if_neg hlt]
        rcases ih a with h | ⟨g, hg, hgt⟩
        · exact Or.inl h
        · exact Or.inr ⟨g, List.mem_cons_of_mem f hg, hgt⟩

/-- Position-level characterisation of the tick list: the ticks are exactly
the multiples of 60 between the hour floor of the window start and the
window end. -/
lemma hourTicks_mem_iff (cs ce t : Int) :
    t ∈ hourTicks cs ce ↔ 60 * (cs / 60) ≤ t ∧ t ≤ ce ∧ 60 ∣ t := by
  have hfd : Int.fdiv cs 60 = cs / 60 := Int.fdiv_eq_ediv cs (by norm_num)
  simp only [hourTicks, hfd]
  split_ifs with hce
  · simp only [List.not_mem_nil, false_iff]
    rintro ⟨h1, h2, h3⟩
    omega
  · constructor
    · intro ht
      rcases List.mem_map.1 ht with ⟨k, hk, rfl⟩
      have hk2 := List.mem_range.1 hk
      refine ⟨by omega, by omega, ⟨cs / 60 + k, by ring⟩⟩
    · rintro ⟨h1, h2, ⟨m, rfl⟩⟩
      apply List.mem_map.2
      refine ⟨(m - cs / 60).toNat, List.mem_range.2 (by omega), by omega⟩

/-- Claim C6 (amended): for every non-empty set of resolved flights the
window equals [min(display-start) − 60, max(display-end) + 60]; ticks are
generated at every whole hour from the hour floor of the window start up to
the window end inclusive — in particular at every whole hour inside the
window — and every tick that is ≥ the window start has a horizontal offset
in [0%, 100%].  (When the window start is not itself a whole hour, the first
generated tick precedes the window start and its offset is negative; see the
counterexample.)  The spec's example — flights 08:00–09:30 and 09:00–11:00 —
produces the window [07:00, 12:00] and ticks at 07:00 through 12:00. -/
theorem claim_C6_amended_window_ticks :
    (∀ (fs : List Flight) (cs ce : Int), chartWindow fs = some (cs, ce) →
      (∃ f ∈ fs, f.stdEst = some (cs + 60)) ∧
      (∀ f ∈ fs, ∀ t : Int, f.stdEst = some t → cs + 60 ≤ t) ∧
      (∃ f ∈ fs, f.staEst = some (ce - 60)) ∧
      (∀ f ∈ fs, ∀ t : Int, f.staEst = some t → t ≤ ce - 60)) ∧
    (∀ cs ce h : Int, 60 ∣ h → cs ≤ h → h ≤ ce → h ∈ hourTicks cs ce) ∧
    (∀ cs ce t : Int, t ∈ hourTicks cs ce → t ≤ ce ∧ 60 ∣ t) ∧
    (∀ cs ce t : Int, t ∈ hourTicks cs ce → cs ≤ t → cs < ce →
      0 ≤ tickLeftPct cs ce t ∧ tickLeftPct cs ce t ≤ 100) ∧
    (chartWindow (buildFlightsFromRows
        [{ std_sched_nz := some 480, sta_sched_nz := some 570 },
         { std_sched_nz := some 540, sta_sched_nz := some 660 }]) =
      some (420, 720)) ∧
    hourTicks 420 720 = [420, 480, 540, 600, 660, 720] := by
  refine ⟨?_, ?_, ?_, ?_, by decide, by decide⟩
  · intro fs cs ce h
    cases fs with
    | nil => exact absurd h (by simp [chartWindow])
    | cons f rest =>
      cases hs : f.stdEst with
      | none => rw [chartWindow, hs] at h; exact absurd h (by simp)
      | some s0 =>
        cases he : f.staEst with
        | none => rw [chartWindow, hs, he] at h; exact absurd h (by simp)
        | some e0 =>
          rw [chartWindow, hs, he, Option.some.injEq, Prod.mk.injEq] at h
          obtain ⟨hcs, hce⟩ := h
          have hmin : cs + 60 = foldMinStart (f :: rest) s0 := by omega
          have hmax : ce - 60 = foldMaxEnd (f :: rest) e0 := by omega
          refine ⟨?_, ?_, ?_, ?_⟩
          · rcases foldMinStart_attained (f :: rest) s0 with h2 | ⟨g, hg, hgt⟩
            · exact ⟨f, List.mem_cons_self f rest, by rw [hs, hmin, h2]⟩
            · exact ⟨g, hg, by rw [hmin]; exact hgt⟩
          · intro g hg t ht
            have := foldMinStart_le_mem (f :: rest) s0 g hg t ht
            omega
          · rcases foldMaxEnd_attained (f :: rest) e0 with h2 | ⟨g, hg, hgt⟩
            · exact ⟨f, List.mem_cons_self f rest, by rw [he, hmax, h2]⟩
            · exact ⟨g, hg, by rw [hmax]; exact hgt⟩
          · intro g hg t ht
            have := foldMaxEnd_mem_le (f :: rest) e0 g hg t ht
            omega
  · intro cs ce h hdvd h1 h2
    apply (hourTicks_mem_iff cs ce h).2
    obtain ⟨m, rfl⟩ := hdvd
    exact ⟨by omega, h2, ⟨m, rfl⟩⟩
  · intro cs ce t ht
    have := (hourTicks_mem_iff cs ce t).1 ht
    exact ⟨this.2.1, this.2.2⟩
  · intro cs ce t ht h1 h2
    have hle := ((hourTicks_mem_iff cs ce t).1 ht).2.1
    have hden : (0 : ℚ) < (ce : ℚ) - (cs : ℚ) := by
      have : (cs : ℚ) < (ce : ℚ) := by exact_mod_cast h2
      linarith
    have hnum0 : (0 : ℚ) ≤ (t : ℚ) - (cs : ℚ) := by
      have : (cs : ℚ) ≤ (t : ℚ) := by exact_mod_cast h1
      linarith
    have hnum1 : (t : ℚ) - (cs : ℚ) ≤ (ce : ℚ) - (cs : ℚ) := by
      have : (t : ℚ) ≤ (ce : ℚ) := by exact_mod_cast hle
      linarith
    constructor
    · have := div_nonneg hnum0 (le_of_lt hden)
      simpa [tickLeftPct] using mul_nonneg this (by norm_num : (0 : ℚ) ≤ 100)
    · have hdiv : ((t : ℚ) - (cs : ℚ)) / ((ce : ℚ) - (cs : ℚ)) ≤ 1 :=
        (div_le_one hden).2 hnum1
      calc tickLeftPct cs ce t = ((t : ℚ) - (cs : ℚ)) / ((ce : ℚ) - (cs : ℚ)) * 100 := rfl
        _ ≤ 1 * 100 := by
            apply mul_le_mul_of_nonneg_right hdiv
            norm_num
        _ = 100 := by norm_num

/-- Claim C6, counterexample: one flight with display span 08:30–09:30
(minutes 510–570) gives the window [07:30, 10:30] (minutes 450–630), whose
start is not a whole hour; the tick loop starts at the hour floor 07:00
(minute 420), a tick that is below the window start and whose horizontal
position is negative, contradicting the claim that every tick lies at an
hour boundary ≥ the window start with position in [0,1]. -/
theorem claim_C6_counterexample :
    chartWindow (buildFlightsFromRows
        [{ std_sched_nz := some 510, sta_sched_nz := some 570 }]) =
      some (450, 630) ∧
    420 ∈ hourTicks 450 630 ∧
    tickLeftPct 450 630 420 < 0 := by
  refine ⟨by decide, by decide, ?_⟩
  norm_num [tickLeftPct]

/-- Claim C6, witness: the tick-coverage and position rules applied at the
spec's example window. -/
theorem claim_C6_witness :
    (480 : Int) ∈ hourTicks 420 720 ∧
    0 ≤ tickLeftPct 420 720 480 ∧ tickLeftPct 420 720 480 ≤ 100 :=
  ⟨claim_C6_amended_window_ticks.2.1 420 720 480 (by decide) (by decide) (by decide),
    claim_C6_amended_window_ticks.2.2.2.1 420 720 480
      (claim_C6_amended_window_ticks.2.1 420 720 480 (by decide) (by decide) (by decide))
      (by decide) (by decide)⟩

end FlightSchedule
